import Mathlib

/-!
Verification of the clickhouse-data-pipeline repository.

Part 1: shallow embedding of the batch ETL pipeline
(`src/etl/core/pipeline.py`: `DataExtractor`, `DataTransformer`,
`DataLoader`, `ETLPipeline`).

Modelling conventions:
* Python `datetime` values used by the batch pipeline are abstract
  timestamps (`Int` ticks, interpreted as seconds); only comparison and
  maximum are performed on them by the pipeline.  A SQL `NULL` / Python
  `None` timestamp is `Option.none`.
* `datetime.date()` of a tick is its floor-divided day number.
* Database collaborator ports (`PostgresConnector.execute_query`,
  `ClickhouseConnector.execute_query` reached via `DataLoader`) are
  environment functions returning `Except String _`; a `.error` result
  models a raised Python exception at that call.
* Each `sync_<kind>` method returns, besides the count and the updated
  `last_sync` state, the list of bulk-insert calls made on the sink
  port, so that claims about what the sink receives are statable.
-/

namespace ClickhousePipeline

/-- Abstract timestamp (`datetime`): integer ticks, ordered. -/
abbrev Ts := Int

/-- `datetime.date()` under the tick model: floor division by 86400. -/
def dateOfTick (t : Ts) : Int := Int.fdiv t 86400

/-- Raw advertiser row as returned by `DataExtractor.extract_advertisers`
(SQL `SELECT id, name, updated_at, created_at FROM advertiser ...`).
Timestamps can be `NULL`. -/
structure AdvRow where
  advId : Int
  name : String
  updatedAt : Option Ts
  createdAt : Option Ts
deriving DecidableEq

/-- Transformed advertiser row as built by
`DataTransformer.transform_advertisers`: all timestamps filled. -/
structure AdvOut where
  advertiserId : Int
  name : String
  updatedAt : Ts
  createdAt : Ts
deriving DecidableEq

/-- Raw campaign row (`extract_campaigns`): `id, name, bid, budget,
start_date, end_date, advertiser_id, updated_at, created_at`.
`bid`/`budget` are nullable decimals (modelled as `Rat`), the dates are
nullable day numbers. -/
structure CampRow where
  campId : Int
  name : String
  bid : Option Rat
  budget : Option Rat
  startDate : Option Int
  endDate : Option Int
  advertiserId : Int
  updatedAt : Option Ts
  createdAt : Option Ts
deriving DecidableEq

/-- Transformed campaign row (`transform_campaigns`). -/
structure CampOut where
  campaignId : Int
  name : String
  bid : Rat
  budget : Rat
  startDate : Int
  endDate : Int
  advertiserId : Int
  updatedAt : Ts
  createdAt : Ts
deriving DecidableEq

/-- Raw impression/click row (`extract_impressions` / `extract_clicks`):
`id, campaign_id, created_at`. -/
structure EventRow where
  evId : Int
  campaignId : Int
  createdAt : Option Ts
deriving DecidableEq

/-- Transformed impression/click row (`transform_impressions` /
`transform_clicks`): `id, campaign_id, event_date, event_time, created_at`. -/
structure EventOut where
  evId : Int
  campaignId : Int
  eventDate : Int
  eventTime : Ts
  createdAt : Ts
deriving DecidableEq

/-- `ETLPipeline.last_sync`: one watermark per entity kind. -/
structure SyncState where
  advertiser : Ts
  campaign : Ts
  impressions : Ts
  clicks : Ts
deriving DecidableEq

/-- Environment of collaborator ports for `ETLPipeline`, plus the
injected clock.  `extract<Kind>` is `DataExtractor.extract_<kind>`
(its SQL round trip); `bulk<Kind>` is the ClickHouse
`INSERT ... VALUES` call issued by `DataLoader.load_<kind>`.
An `.error` value models a raised exception. -/
structure Env where
  extractAdvertisers : Ts → Except String (List AdvRow)
  extractCampaigns : Ts → Except String (List CampRow)
  extractImpressions : Ts → Except String (List EventRow)
  extractClicks : Ts → Except String (List EventRow)
  bulkAdv : List AdvOut → Except String Unit
  bulkCamp : List CampOut → Except String Unit
  bulkImp : List EventOut → Except String Unit
  bulkClick : List EventOut → Except String Unit
  now : Ts
  today : Int

/-- `DataTransformer.transform_advertisers`: `updated_at or datetime.now()`
(a `datetime` is always truthy, so `or now` only replaces `None`). -/
def transform_advertisers (now : Ts) (rows : List AdvRow) : List AdvOut :=
  rows.map fun r => ⟨r.advId, r.name, r.updatedAt.getD now, r.createdAt.getD now⟩

/-- `float(bid) if bid else 0.0`: Python truthiness on a nullable
numeric — `None` and zero are falsy, both map to `0.0`. -/
def pyFloatOrZero (v : Option Rat) : Rat :=
  match v with
  | some b => if b = 0 then 0 else b
  | none => 0

/-- `DataTransformer.transform_campaigns`. -/
def transform_campaigns (now : Ts) (today : Int) (rows : List CampRow) : List CampOut :=
  rows.map fun r =>
    ⟨r.campId, r.name, pyFloatOrZero r.bid, pyFloatOrZero r.budget,
      r.startDate.getD today, r.endDate.getD today, r.advertiserId,
      r.updatedAt.getD now, r.createdAt.getD now⟩

/-- `DataTransformer.transform_impressions` / `transform_clicks`:
`event_time = created_at or now; event_date = event_time.date()`. -/
def transform_events (now : Ts) (rows : List EventRow) : List EventOut :=
  rows.map fun r =>
    let eventTime := r.createdAt.getD now
    ⟨r.evId, r.campaignId, dateOfTick eventTime, eventTime, r.createdAt.getD now⟩

/-- One step of the watermark scan in each `sync_<kind>`:
`if stamp and stamp > latest_update: latest_update = stamp`
(a non-`None` `datetime` is always truthy). -/
def stepMax (acc : Ts) (o : Option Ts) : Ts :=
  match o with
  | some t => if acc < t then t else acc
  | none => acc

/-- Watermark scan of `sync_advertisers` / `sync_campaigns` over the raw
rows: fold `stepMax` over `updated_at` then `created_at` of each row. -/
def latestOfPairs (w : Ts) (stamps : List (Option Ts × Option Ts)) : Ts :=
  stamps.foldl (fun acc p => stepMax (stepMax acc p.1) p.2) w

/-- Watermark scan of `sync_impressions` / `sync_clicks` over the raw
rows (`created_at` only). -/
def latestOfSingles (w : Ts) (stamps : List (Option Ts)) : Ts :=
  stamps.foldl stepMax w

/-- `DataLoader.load_advertisers`: empty data returns 0 without touching
the sink; otherwise one bulk insert, then `len(data)`. -/
def load_advertisers (bulk : List AdvOut → Except String Unit)
    (data : List AdvOut) : Except String Nat :=
  if data.isEmpty then .ok 0
  else match bulk data with
    | .ok _ => .ok data.length
    | .error e => .error e

/-- `DataLoader.load_campaigns`. -/
def load_campaigns (bulk : List CampOut → Except String Unit)
    (data : List CampOut) : Except String Nat :=
  if data.isEmpty then .ok 0
  else match bulk data with
    | .ok _ => .ok data.length
    | .error e => .error e

/-- `DataLoader.load_impressions` / `load_clicks`. -/
def load_events (bulk : List EventOut → Except String Unit)
    (data : List EventOut) : Except String Nat :=
  if data.isEmpty then .ok 0
  else match bulk data with
    | .ok _ => .ok data.length
    | .error e => .error e

/-- `ETLPipeline.sync_advertisers`.  Returns the count, the updated
`last_sync` state, and the list of bulk-insert calls made on the sink.
Any exception inside the `try` block (a failing extract or load port)
is caught and converted to `(0, unchanged state)`; the watermark is
committed only after the load succeeds. -/
def sync_advertisers (env : Env) (st : SyncState) :
    Nat × SyncState × List (List AdvOut) :=
  match env.extractAdvertisers st.advertiser with
  | .error _ => (0, st, [])
  | .ok rows =>
    if rows.isEmpty then (0, st, [])
    else
      let data := transform_advertisers env.now rows
      let latest := latestOfPairs st.advertiser
        (rows.map fun r => (r.updatedAt, r.createdAt))
      match load_advertisers env.bulkAdv data with
      | .error _ => (0, st, [data])
      | .ok count => (count, { st with advertiser := latest }, [data])

/-- `ETLPipeline.sync_campaigns`. -/
def sync_campaigns (env : Env) (st : SyncState) :
    Nat × SyncState × List (List CampOut) :=
  match env.extractCampaigns st.campaign with
  | .error _ => (0, st, [])
  | .ok rows =>
    if rows.isEmpty then (0, st, [])
    else
      let data := transform_campaigns env.now env.today rows
      let latest := latestOfPairs st.campaign
        (rows.map fun r => (r.updatedAt, r.createdAt))
      match load_campaigns env.bulkCamp data with
      | .error _ => (0, st, [data])
      | .ok count => (count, { st with campaign := latest }, [data])

/-- `ETLPipeline.sync_impressions`. -/
def sync_impressions (env : Env) (st : SyncState) :
    Nat × SyncState × List (List EventOut) :=
  match env.extractImpressions st.impressions with
  | .error _ => (0, st, [])
  | .ok rows =>
    if rows.isEmpty then (0, st, [])
    else
      let data := transform_events env.now rows
      let latest := latestOfSingles st.impressions (rows.map (·.createdAt))
      match load_events env.bulkImp data with
      | .error _ => (0, st, [data])
      | .ok count => (count, { st with impressions := latest }, [data])

/-- `ETLPipeline.sync_clicks`. -/
def sync_clicks (env : Env) (st : SyncState) :
    Nat × SyncState × List (List EventOut) :=
  match env.extractClicks st.clicks with
  | .error _ => (0, st, [])
  | .ok rows =>
    if rows.isEmpty then (0, st, [])
    else
      let data := transform_events env.now rows
      let latest := latestOfSingles st.clicks (rows.map (·.createdAt))
      match load_events env.bulkClick data with
      | .error _ => (0, st, [data])
      | .ok count => (count, { st with clicks := latest }, [data])

/-- `ETLPipeline.run_sync_cycle`: the four syncs in fixed order; each
returned count is discarded by the source; returns `True` unless an
exception escapes one of the sync calls — which cannot happen, since
each `sync_<kind>` catches its own exceptions, so the model always
returns `true`. -/
def run_sync_cycle (env : Env) (st : SyncState) : Bool × SyncState :=
  let r1 := sync_advertisers env st
  let r2 := sync_campaigns env r1.2.1
  let r3 := sync_impressions env r2.2.1
  let r4 := sync_clicks env r3.2.1
  (true, r4.2.1)

/-- SQL comparison `col > %s` on a nullable column: `NULL > x` is not
satisfied. -/
def sqlGt (v : Option Ts) (s : Ts) : Bool :=
  match v with
  | some t => s < t
  | none => false

/-- The SQL semantics of `DataExtractor.extract_advertisers` against a
given source table: `WHERE updated_at > %s OR created_at > %s`. -/
def extract_advertisers_sql (table : List AdvRow) (since : Ts) : List AdvRow :=
  table.filter fun r => sqlGt r.updatedAt since || sqlGt r.createdAt since

/-- The non-null timestamps of a list of `(updated_at, created_at)`
pairs, in scan order (nulls skipped). -/
def pairStamps : List (Option Ts × Option Ts) → List Ts
  | [] => []
  | p :: rest => p.1.toList ++ p.2.toList ++ pairStamps rest

/-- The non-null timestamps of a list of `created_at` values. -/
def singleStamps (l : List (Option Ts)) : List Ts :=
  l.filterMap id

/-- Source advertiser table row of the end-to-end scenario:
`(id=1, name="Acme", updated_at=T, created_at=T)`. -/
def acmeRow (T : Ts) : AdvRow := ⟨1, "Acme", some T, some T⟩

/-- Environment of the end-to-end scenario: the advertiser source table
holds exactly `acmeRow T`, extraction applies the SQL filter of
`extract_advertisers`, all sink writes succeed. -/
def acmeEnv (T : Ts) : Env where
  extractAdvertisers := fun since => .ok (extract_advertisers_sql [acmeRow T] since)
  extractCampaigns := fun _ => .ok []
  extractImpressions := fun _ => .ok []
  extractClicks := fun _ => .ok []
  bulkAdv := fun _ => .ok ()
  bulkCamp := fun _ => .ok ()
  bulkImp := fun _ => .ok ()
  bulkClick := fun _ => .ok ()
  now := 0
  today := 0

/-- One-row extraction results used by concrete instantiations. -/
def advRow1 : AdvRow := ⟨1, "a", some 5, none⟩

/-- Concrete campaign row with a non-null `updated_at`. -/
def campRow1 : CampRow := ⟨1, "c", none, none, none, none, 1, some 5, none⟩

/-- Concrete impression/click row. -/
def evRow1 : EventRow := ⟨1, 1, some 5⟩

/-- Environment whose extractions return one row each and whose sink
bulk-write ports all raise. -/
def envBulkFail : Env where
  extractAdvertisers := fun _ => .ok [advRow1]
  extractCampaigns := fun _ => .ok [campRow1]
  extractImpressions := fun _ => .ok [evRow1]
  extractClicks := fun _ => .ok [evRow1]
  bulkAdv := fun _ => .error "io error"
  bulkCamp := fun _ => .error "io error"
  bulkImp := fun _ => .error "io error"
  bulkClick := fun _ => .error "io error"
  now := 0
  today := 0

/-- Environment whose extractions return one row each and whose sink
bulk-write ports all succeed. -/
def envBulkOk : Env where
  extractAdvertisers := fun _ => .ok [advRow1]
  extractCampaigns := fun _ => .ok [campRow1]
  extractImpressions := fun _ => .ok [evRow1]
  extractClicks := fun _ => .ok [evRow1]
  bulkAdv := fun _ => .ok ()
  bulkCamp := fun _ => .ok ()
  bulkImp := fun _ => .ok ()
  bulkClick := fun _ => .ok ()
  now := 0
  today := 0

/-- Environment whose extractions all return the empty row sequence. -/
def envEmpty : Env where
  extractAdvertisers := fun _ => .ok []
  extractCampaigns := fun _ => .ok []
  extractImpressions := fun _ => .ok []
  extractClicks := fun _ => .ok []
  bulkAdv := fun _ => .ok ()
  bulkCamp := fun _ => .ok ()
  bulkImp := fun _ => .ok ()
  bulkClick := fun _ => .ok ()
  now := 0
  today := 0

/-- Environment whose advertiser extraction returns one row with both
timestamps `NULL` and whose sink writes succeed: the sync loads one row
(count 1) but the watermark scan finds no non-null stamp. -/
def envOneNullRow : Env where
  extractAdvertisers := fun _ => .ok [⟨1, "x", none, none⟩]
  extractCampaigns := fun _ => .ok []
  extractImpressions := fun _ => .ok []
  extractClicks := fun _ => .ok []
  bulkAdv := fun _ => .ok ()
  bulkCamp := fun _ => .ok ()
  bulkImp := fun _ => .ok ()
  bulkClick := fun _ => .ok ()
  now := 0
  today := 0

/-- A concrete `last_sync` state. -/
def st0 : SyncState := ⟨0, 0, 0, 0⟩

end ClickhousePipeline

/-!
Part 2: shallow embedding of the streaming processor
(`src/stream_etl/core/processor.py`, class `DataProcessor`).

Modelling conventions:
* Wire values are the inductive `PyVal`: Python `None`, `int`, `float`
  (modelled as an exact rational — every numeric value appearing in the
  claims is exactly representable as a double), `str`, `datetime.date`
  (as an epoch-day number) and `datetime.datetime` (as rational seconds
  since the epoch, in one fixed timezone).  Crucially, Python's
  `datetime` class is a subclass of `date`, so
  `isinstance(v, date)` is true for both `date` and `datetime` values;
  the embedding mirrors this with `isinstDate`.
* `datetime.now()` is an injected clock value `now`.
* `float(string)` is modelled on decimal literals (optional sign,
  digits with at most one dot, optional exponent) — every string the
  claims mention is inside this fragment, and strings outside it make
  Python's `float` raise `ValueError` just as the model returns `none`.
* A function that can raise returns `Except String _`.
-/

namespace StreamProcessor

/-- Python values arriving through the Kafka/JSON boundary. -/
inductive PyVal where
  | none
  | int (n : Int)
  | float (q : Rat)
  | str (s : String)
  | date (d : Int)
  | datetime (t : Rat)
deriving DecidableEq

/-- `isinstance(v, datetime)`. -/
def isinstDatetime : PyVal → Bool
  | .datetime _ => true
  | _ => false

/-- `isinstance(v, date)`: true for `date` AND for `datetime`, because
`datetime.datetime` subclasses `datetime.date` in Python. -/
def isinstDate : PyVal → Bool
  | .date _ => true
  | .datetime _ => true
  | _ => false

/-- Decimal digits to a natural number. -/
def digitsToNat (cs : List Char) : Nat :=
  cs.foldl (fun a c => 10 * a + (c.toNat - '0'.toNat)) 0

/-- Scale a rational by a signed power of ten (exponent of a float
literal). -/
def applyExp (q : Rat) (e : Int) : Rat :=
  if 0 ≤ e then q * 10 ^ e.toNat else q / 10 ^ (-e).toNat

/-- Digits of an exponent. -/
def parseExpDigits (ds : List Char) : Option Int :=
  if ds ≠ [] ∧ ds.all Char.isDigit then some (digitsToNat ds : Int) else Option.none

/-- Exponent after `e`/`E`: optional sign, then digits. -/
def parseSignedExp : List Char → Option Int
  | '+' :: ds => parseExpDigits ds
  | '-' :: ds => (parseExpDigits ds).map Neg.neg
  | ds => parseExpDigits ds

/-- Remainder after the mantissa of a float literal: empty, or an
exponent part consuming the whole rest. -/
def parseExp : List Char → Option Int
  | [] => some 0
  | 'e' :: rest => parseSignedExp rest
  | 'E' :: rest => parseSignedExp rest
  | _ => Option.none

/-- Unsigned part of `float(str)`: digits, optional dot with fractional
digits (at least one digit overall), optional exponent. -/
def pyFloatCore (cs : List Char) : Option Rat :=
  let ip := cs.takeWhile Char.isDigit
  let rest := cs.dropWhile Char.isDigit
  match rest with
  | '.' :: rest2 =>
    let fp := rest2.takeWhile Char.isDigit
    let rest3 := rest2.dropWhile Char.isDigit
    if ip.isEmpty ∧ fp.isEmpty then Option.none
    else (parseExp rest3).map fun e =>
      applyExp ((digitsToNat ip : Rat) + (digitsToNat fp : Rat) / 10 ^ fp.length) e
  | _ =>
    if ip.isEmpty then Option.none
    else (parseExp rest).map fun e => applyExp (digitsToNat ip : Rat) e

/-- Python `float(s)` on a string: `some` the parsed value, `none` when
`float` raises `ValueError`. -/
def pyFloat? (s : String) : Option Rat :=
  match s.data with
  | '+' :: rest => pyFloatCore rest
  | '-' :: rest => (pyFloatCore rest).map Neg.neg
  | cs => pyFloatCore cs

/-- `re.sub(r'[^\d\.\-]', '', value)`: keep only digits, dot, dash. -/
def cleanNumeric (s : String) : String :=
  String.mk (s.data.filter fun c => c.isDigit || c = '.' || c = '-')

/-- `DataProcessor._parse_numeric`.  `.error` models an uncaught
exception: the second `float(clean_value)` call (on the cleaned string)
is NOT inside a `try` block in the source, so its `ValueError`
propagates out of the method. -/
def parse_numeric : PyVal → Except String Rat
  | .none => .ok 0
  | .int n => .ok (n : Rat)
  | .float q => .ok q
  | .str s =>
    match pyFloat? s with
    | some q => .ok q
    | Option.none =>
      let clean := cleanNumeric s
      if clean ≠ "" then
        match pyFloat? clean with
        | some q => .ok q
        | Option.none => .error "ValueError"
      else .ok 1
  | _ => .ok 1

/-- Lower bound of `datetime.fromtimestamp`'s representable range
(year 1), in seconds since the epoch. -/
def tsMinSec : Int := -62135596800

/-- Upper bound of `datetime.fromtimestamp`'s representable range
(end of year 9999), in seconds since the epoch. -/
def tsMaxSec : Int := 253402300800

/-- `datetime.fromtimestamp(t)` under the `try/except` of
`_parse_date`: the instant itself inside the representable range,
`datetime.now()` when the conversion raises. -/
def pyFromtimestamp (now t : Rat) : Rat :=
  if (tsMinSec : Rat) ≤ t ∧ t < (tsMaxSec : Rat) then t else now

/-- Days from civil date (proleptic Gregorian), epoch 1970-01-01;
truncating `Int` division matches the reference algorithm. -/
def daysFromCivil (y m d : Int) : Int :=
  let y2 := if m ≤ 2 then y - 1 else y
  let era := (if 0 ≤ y2 then y2 else y2 - 399) / 400
  let yoe := y2 - era * 400
  let doy := (153 * (if 2 < m then m - 3 else m + 9) + 2) / 5 + d - 1
  let doe := yoe * 365 + yoe / 4 - yoe / 100 + doy
  era * 146097 + doe - 719468

/-- Gregorian leap year. -/
def isLeap (y : Int) : Bool :=
  (y % 4 == 0 && y % 100 != 0) || y % 400 == 0

/-- Days in a month. -/
def daysInMonth (y m : Int) : Int :=
  if m = 2 then (if isLeap y then 29 else 28)
  else if m = 4 ∨ m = 6 ∨ m = 9 ∨ m = 11 then 30 else 31

/-- Valid `datetime` year/month/day ranges. -/
def validYmd (y m d : Int) : Bool :=
  1 ≤ y && y ≤ 9999 && 1 ≤ m && m ≤ 12 && 1 ≤ d && d ≤ daysInMonth y m

/-- Valid hour/minute/second ranges. -/
def validHms (h mi s : Int) : Bool :=
  0 ≤ h && h ≤ 23 && 0 ≤ mi && mi ≤ 59 && 0 ≤ s && s ≤ 59

/-- A digit group of between 1 and `maxLen` characters. -/
def natGroup? (s : String) (maxLen : Nat) : Option Int :=
  if 1 ≤ s.length ∧ s.length ≤ maxLen ∧ s.data.all Char.isDigit then
    some (digitsToNat s.data : Int)
  else Option.none

/-- A digit group of exactly `len` characters. -/
def natGroupExact? (s : String) (len : Nat) : Option Int :=
  if s.length = len ∧ s.data.all Char.isDigit then
    some (digitsToNat s.data : Int)
  else Option.none

/-- Naive civil datetime to seconds since the epoch. -/
def civilToSecs (y m d h mi s : Int) : Rat :=
  ((daysFromCivil y m d) * 86400 + h * 3600 + mi * 60 + s : Int)

/-- `strptime(s, "%Y-%m-%d")` / `"%Y/%m/%d"`: three digit groups. -/
def parseYmdSep (s : String) (sep : String) : Option Rat :=
  match s.splitOn sep with
  | [ys, ms, ds] => do
    let y ← natGroup? ys 4
    let m ← natGroup? ms 2
    let d ← natGroup? ds 2
    if validYmd y m d then some (civilToSecs y m d 0 0 0) else Option.none
  | _ => Option.none

/-- `strptime(s, "%d-%m-%Y")` / `"%d/%m/%Y"`. -/
def parseDmySep (s : String) (sep : String) : Option Rat :=
  match s.splitOn sep with
  | [ds, ms, ys] => do
    let d ← natGroup? ds 2
    let m ← natGroup? ms 2
    let y ← natGroup? ys 4
    if validYmd y m d then some (civilToSecs y m d 0 0 0) else Option.none
  | _ => Option.none

/-- `strptime(s, "%H:%M:%S")` time fields. -/
def parseHmsColon (s : String) : Option (Int × Int × Int) :=
  match s.splitOn ":" with
  | [hs, ms, ss] => do
    let h ← natGroup? hs 2
    let mi ← natGroup? ms 2
    let sec ← natGroup? ss 2
    if validHms h mi sec then some (h, mi, sec) else Option.none
  | _ => Option.none

/-- `strptime(s, "%Y-%m-%d %H:%M:%S")`. -/
def parseYmdHms (s : String) : Option Rat :=
  match s.splitOn " " with
  | [dp, tp] =>
    match dp.splitOn "-" with
    | [ys, ms, ds] => do
      let y ← natGroup? ys 4
      let m ← natGroup? ms 2
      let d ← natGroup? ds 2
      let (h, mi, sec) ← parseHmsColon tp
      if validYmd y m d then some (civilToSecs y m d h mi sec) else Option.none
    | _ => Option.none
  | _ => Option.none

/-- ISO time-of-day `HH:MM[:SS[.f…]]` (two-digit fields, fraction of
one to six digits), in seconds. -/
def isoTime? (s : String) : Option Rat :=
  match s.splitOn ":" with
  | [hs, ms] => do
    let h ← natGroupExact? hs 2
    let mi ← natGroupExact? ms 2
    if validHms h mi 0 then some (((h * 3600 + mi * 60 : Int) : Rat)) else Option.none
  | [hs, ms, ss] => do
    let h ← natGroupExact? hs 2
    let mi ← natGroupExact? ms 2
    let (secStr, fracVal) ←
      match ss.splitOn "." with
      | [a] => some (a, (0 : Rat))
      | [a, f] =>
        if 1 ≤ f.length ∧ f.length ≤ 6 ∧ f.data.all Char.isDigit then
          some (a, (digitsToNat f.data : Rat) / 10 ^ f.length)
        else Option.none
      | _ => Option.none
    let sec ← natGroupExact? secStr 2
    if validHms h mi sec then
      some (((h * 3600 + mi * 60 + sec : Int) : Rat) + fracVal)
    else Option.none
  | _ => Option.none

/-- Split a trailing UTC offset `±HH:MM` off an ISO time part; the
`Bool` is the sign (`true` = `+`). -/
def splitOffset (s : String) : String × Option (Bool × String) :=
  match s.splitOn "+" with
  | [a, b] => (a, some (true, b))
  | _ =>
    match s.splitOn "-" with
    | [a, b] => (a, some (false, b))
    | _ => (s, Option.none)

/-- An ISO offset `HH:MM` in seconds. -/
def isoOffset? (s : String) : Option Rat :=
  match s.splitOn ":" with
  | [hs, ms] => do
    let h ← natGroupExact? hs 2
    let mi ← natGroupExact? ms 2
    if 0 ≤ h ∧ h ≤ 23 ∧ 0 ≤ mi ∧ mi ≤ 59 then
      some (((h * 3600 + mi * 60 : Int) : Rat))
    else Option.none
  | _ => Option.none

/-- `datetime.fromisoformat`: `YYYY-MM-DD`, optionally `T` and a time,
optionally a `±HH:MM` offset (an aware result is taken as the UTC
instant, i.e. the offset is subtracted).  `none` models a raised
`ValueError`. -/
def isoParse? (s : String) : Option Rat :=
  match s.splitOn "T" with
  | [dp] => parseYmdSepIso dp
  | [dp, tp] => do
    let ds ← parseYmdSepIso dp
    let (tcore, off) := splitOffset tp
    let tv ← isoTime? tcore
    match off with
    | Option.none => some (ds + tv)
    | some (sign, ostr) => do
      let ov ← isoOffset? ostr
      some (ds + tv - (if sign then ov else -ov))
  | _ => Option.none
where
  /-- ISO date `YYYY-MM-DD` with exact field widths. -/
  parseYmdSepIso (dp : String) : Option Rat :=
    match dp.splitOn "-" with
    | [ys, ms, ds] => do
      let y ← natGroupExact? ys 4
      let m ← natGroupExact? ms 2
      let d ← natGroupExact? ds 2
      if validYmd y m d then some (civilToSecs y m d 0 0 0) else Option.none
    | _ => Option.none

/-- The five-format `strptime` loop of `_parse_date`, in source order:
`%Y-%m-%d`, `%Y-%m-%d %H:%M:%S`, `%Y/%m/%d`, `%d-%m-%Y`, `%d/%m/%Y`. -/
def tryFormats (s : String) : Option Rat :=
  (parseYmdSep s "-").orElse fun _ =>
    (parseYmdHms s).orElse fun _ =>
      (parseYmdSep s "/").orElse fun _ =>
        (parseDmySep s "-").orElse fun _ =>
          parseDmySep s "/"

/-- `re.sub(r'[^\d\-:T\.Z\+]', '', date_value)`. -/
def cleanDate (s : String) : String :=
  String.mk (s.data.filter fun c =>
    c.isDigit || c = '-' || c = ':' || c = 'T' || c = '.' || c = 'Z' || c = '+')

/-- The string branch of `_parse_date`: replace `Z` by `+00:00` and try
ISO (only when a `T` is present), then the format list on the original
string, then the cleaning retry, then `datetime.now()`. -/
def parseDateString (now : Rat) (s : String) : Rat :=
  let cleanedIso := s.replace "Z" "+00:00"
  let step1 : Option Rat :=
    if cleanedIso.contains 'T' then isoParse? cleanedIso else Option.none
  match step1 with
  | some t => t
  | Option.none =>
    match tryFormats s with
    | some t => t
    | Option.none =>
      let cd := cleanDate s
      if cd ≠ "" then
        match isoParse? (cd.replace "Z" "+00:00") with
        | some t => t
        | Option.none => now
      else now

/-- `DataProcessor._parse_date`: `None` → now; temporal values pass
through unchanged (a `date` stays a `date`); integers are epoch values
whose magnitude selects seconds / milliseconds / microseconds; floats
are epoch seconds; strings go through `parseDateString`. -/
def parse_date (now : Rat) (v : PyVal) : PyVal :=
  match v with
  | .none => .datetime now
  | .datetime t => .datetime t
  | .date d => .date d
  | .int n =>
    if n < 32503680000 then .datetime (pyFromtimestamp now (n : Rat))
    else if n < 32503680000000 then .datetime (pyFromtimestamp now ((n : Rat) / 1000))
    else .datetime (pyFromtimestamp now ((n : Rat) / 1000000))
  | .float q => .datetime (pyFromtimestamp now q)
  | .str s => .datetime (parseDateString now s)

/-- `.date()` on a `datetime` value: its epoch-day number (floor). -/
def pyDateOf : PyVal → PyVal
  | .datetime t => .date (t / 86400).floor
  | v => v

/-- `DataProcessor._ensure_datetime`: a `datetime` passes through; a
`date` (that is not a `datetime`) becomes midnight via
`datetime.combine(d, datetime.min.time())`; anything else goes through
`_parse_date` (which never raises, so the `except` is dead). -/
def ensure_datetime (now : Rat) (v : PyVal) : PyVal :=
  match v with
  | .datetime t => .datetime t
  | .date d => .datetime ((d * 86400 : Int) : Rat)
  | _ => parse_date now v

/-- `DataProcessor._ensure_date`.  The first test
`isinstance(dt_value, date)` also matches `datetime` values (subclass),
so it returns them unchanged and the explicit
`isinstance(dt_value, datetime)` branch below it is unreachable. -/
def ensure_date (now : Rat) (v : PyVal) : PyVal :=
  if isinstDate v then v
  else if isinstDatetime v then pyDateOf v
  else pyDateOf (ensure_datetime now v)

/-- `DataProcessor.stats`. -/
structure ProcStats where
  advertiser : Nat
  campaign : Nat
  impressions : Nat
  clicks : Nat
deriving DecidableEq

/-- An event payload: a JSON-like string-keyed mapping. -/
abbrev Payload := List (String × PyVal)

/-- `dict.get(k)`: the value, or `None` when the key is absent. -/
def dget (d : Payload) (k : String) : PyVal :=
  match d.find? (fun p => p.1 == k) with
  | some p => p.2
  | Option.none => .none

/-- One call on the sink single-row write port
(`clickhouse_client.execute` with one row). -/
structure InsertCall where
  table : String
  row : List PyVal
deriving DecidableEq

/-- Streaming environment: the response of the ClickHouse client (an
`.error` is a raised exception, caught by each `_insert_*`) and the
injected clock. -/
structure ProcEnv where
  chExec : String → List PyVal → Except String Unit
  now : Rat

/-- `DataProcessor._insert_advertiser`: builds the row, calls the sink
write port, bumps the counter only on success; every exception is
caught locally. -/
def insert_advertiser (env : ProcEnv) (st : ProcStats) (data : Payload) :
    ProcStats × List InsertCall :=
  let row := [dget data "id", dget data "name",
    ensure_datetime env.now (dget data "updated_at"),
    ensure_datetime env.now (dget data "created_at")]
  match env.chExec "analytics.dim_advertiser" row with
  | .ok _ => ({ st with advertiser := st.advertiser + 1 }, [⟨"analytics.dim_advertiser", row⟩])
  | .error _ => (st, [⟨"analytics.dim_advertiser", row⟩])

/-- `DataProcessor._update_advertiser`: re-insert (replace-on-conflict
sink). -/
def update_advertiser (env : ProcEnv) (st : ProcStats) (data : Payload) :
    ProcStats × List InsertCall :=
  insert_advertiser env st data

/-- `DataProcessor._insert_campaign`.  `_parse_numeric` on `bid` and
then `budget` can raise (see `parse_numeric`); that exception is caught
by this method's `except`, so no sink call happens. -/
def insert_campaign (env : ProcEnv) (st : ProcStats) (data : Payload) :
    ProcStats × List InsertCall :=
  match parse_numeric (dget data "bid") with
  | .error _ => (st, [])
  | .ok bid =>
    match parse_numeric (dget data "budget") with
    | .error _ => (st, [])
    | .ok budget =>
      let row := [dget data "id", dget data "name", .float bid, .float budget,
        ensure_date env.now (dget data "start_date"),
        ensure_date env.now (dget data "end_date"),
        dget data "advertiser_id",
        ensure_datetime env.now (dget data "updated_at"),
        ensure_datetime env.now (dget data "created_at")]
      match env.chExec "analytics.dim_campaign" row with
      | .ok _ => ({ st with campaign := st.campaign + 1 }, [⟨"analytics.dim_campaign", row⟩])
      | .error _ => (st, [⟨"analytics.dim_campaign", row⟩])

/-- `DataProcessor._update_campaign`: re-insert. -/
def update_campaign (env : ProcEnv) (st : ProcStats) (data : Payload) :
    ProcStats × List InsertCall :=
  insert_campaign env st data

/-- `DataProcessor._insert_impression`. -/
def insert_impression (env : ProcEnv) (st : ProcStats) (data : Payload) :
    ProcStats × List InsertCall :=
  let createdAt := ensure_datetime env.now (dget data "created_at")
  let eventTime := createdAt
  let eventDate := pyDateOf createdAt
  let row := [dget data "id", dget data "campaign_id", eventDate, eventTime, createdAt]
  match env.chExec "analytics.fact_impressions" row with
  | .ok _ => ({ st with impressions := st.impressions + 1 }, [⟨"analytics.fact_impressions", row⟩])
  | .error _ => (st, [⟨"analytics.fact_impressions", row⟩])

/-- `DataProcessor._insert_click`. -/
def insert_click (env : ProcEnv) (st : ProcStats) (data : Payload) :
    ProcStats × List InsertCall :=
  let createdAt := ensure_datetime env.now (dget data "created_at")
  let eventTime := createdAt
  let eventDate := pyDateOf createdAt
  let row := [dget data "id", dget data "campaign_id", eventDate, eventTime, createdAt]
  match env.chExec "analytics.fact_clicks" row with
  | .ok _ => ({ st with clicks := st.clicks + 1 }, [⟨"analytics.fact_clicks", row⟩])
  | .error _ => (st, [⟨"analytics.fact_clicks", row⟩])

/-- `DataProcessor._handle_operation`: dispatch on operation tag and
table.  `c`/`r` insert; `u` re-inserts for advertiser/campaign and is
a no-op for the append-only impressions/clicks; `d` only logs; unknown
operations and tables fall through with no effect. -/
def handle_operation (env : ProcEnv) (st : ProcStats) (op table : String)
    (data : Payload) : ProcStats × List InsertCall :=
  if op = "c" ∨ op = "r" then
    if table = "advertiser" then insert_advertiser env st data
    else if table = "campaign" then insert_campaign env st data
    else if table = "impressions" then insert_impression env st data
    else if table = "clicks" then insert_click env st data
    else (st, [])
  else if op = "u" then
    if table = "advertiser" then update_advertiser env st data
    else if table = "campaign" then update_campaign env st data
    else (st, [])
  else if op = "d" then (st, [])
  else (st, [])

end StreamProcessor

/-!
Part 3: theorems.
-/

namespace ClickhousePipeline

lemma stepMax_eq_foldl (acc : Ts) (o : Option Ts) :
    stepMax acc o = o.toList.foldl max acc := by
  cases o with
  | none => rfl
  | some t =>
    simp only [stepMax, Option.toList, List.foldl_cons, List.foldl_nil]
    rcases lt_or_ge acc t with h | h
    · rw [if_pos h, max_eq_right h.le]
    · rw [if_neg (not_lt.mpr h), max_eq_left h]

lemma latestOfPairs_eq_foldl (stamps : List (Option Ts × Option Ts)) (w : Ts) :
    latestOfPairs w stamps = (pairStamps stamps).foldl max w := by
  induction stamps generalizing w with
  | nil => rfl
  | cons p rest ih =>
    simp only [latestOfPairs, List.foldl_cons, pairStamps, List.append_assoc,
      List.foldl_append]
    rw [← stepMax_eq_foldl, ← stepMax_eq_foldl]
    exact ih (stepMax (stepMax w p.1) p.2)

lemma latestOfSingles_eq_foldl (stamps : List (Option Ts)) (w : Ts) :
    latestOfSingles w stamps = (singleStamps stamps).foldl max w := by
  induction stamps generalizing w with
  | nil => rfl
  | cons o rest ih =>
    cases o with
    | none =>
      simpa [latestOfSingles, singleStamps, stepMax] using ih w
    | some t =>
      simp only [latestOfSingles, List.foldl_cons, singleStamps,
        List.filterMap_cons_some, id]
      rw [show stepMax w (some t) = max w t from by
        simpa [Option.toList] using stepMax_eq_foldl w (some t)]
      exact ih (max w t)

/-- C1: for every entity kind, if the bulk-load step (the sink
bulk-write port) raises during `sync_<kind>`, the call returns 0 and
the watermark state is left at its prior value; the model `sync_<kind>`
functions are total, so no exception reaches the caller. -/
theorem claim1_bulk_load_failure (env : Env) (st : SyncState) :
    (∀ rows e, env.extractAdvertisers st.advertiser = .ok rows → rows ≠ [] →
      env.bulkAdv (transform_advertisers env.now rows) = .error e →
      sync_advertisers env st = (0, st, [transform_advertisers env.now rows])) ∧
    (∀ rows e, env.extractCampaigns st.campaign = .ok rows → rows ≠ [] →
      env.bulkCamp (transform_campaigns env.now env.today rows) = .error e →
      sync_campaigns env st = (0, st, [transform_campaigns env.now env.today rows])) ∧
    (∀ rows e, env.extractImpressions st.impressions = .ok rows → rows ≠ [] →
      env.bulkImp (transform_events env.now rows) = .error e →
      sync_impressions env st = (0, st, [transform_events env.now rows])) ∧
    (∀ rows e, env.extractClicks st.clicks = .ok rows → rows ≠ [] →
      env.bulkClick (transform_events env.now rows) = .error e →
      sync_clicks env st = (0, st, [transform_events env.now rows])) := by
  refine ⟨?_, ?_, ?_, ?_⟩
  · intro rows e hex hne hbulk
    obtain ⟨r, rs, rfl⟩ := List.exists_cons_of_ne_nil hne
    simp [sync_advertisers, hex, load_advertisers, transform_advertisers] at hbulk ⊢
    simp [hbulk]
  · intro rows e hex hne hbulk
    obtain ⟨r, rs, rfl⟩ := List.exists_cons_of_ne_nil hne
    simp [sync_campaigns, hex, load_campaigns, transform_campaigns] at hbulk ⊢
    simp [hbulk]
  · intro rows e hex hne hbulk
    obtain ⟨r, rs, rfl⟩ := List.exists_cons_of_ne_nil hne
    simp [sync_impressions, hex, load_events, transform_events] at hbulk ⊢
    simp [hbulk]
  · intro rows e hex hne hbulk
    obtain ⟨r, rs, rfl⟩ := List.exists_cons_of_ne_nil hne
    simp [sync_clicks, hex, load_events, transform_events] at hbulk ⊢
    simp [hbulk]

/-- Witness for C1 at a concrete environment whose sink bulk writes
raise. -/
theorem claim1_bulk_load_failure_witness :
    sync_advertisers envBulkFail st0 = (0, st0, [transform_advertisers envBulkFail.now [advRow1]]) ∧
    sync_campaigns envBulkFail st0 = (0, st0, [transform_campaigns envBulkFail.now envBulkFail.today [campRow1]]) ∧
    sync_impressions envBulkFail st0 = (0, st0, [transform_events envBulkFail.now [evRow1]]) ∧
    sync_clicks envBulkFail st0 = (0, st0, [transform_events envBulkFail.now [evRow1]]) := by
  obtain ⟨h1, h2, h3, h4⟩ := claim1_bulk_load_failure envBulkFail st0
  exact ⟨h1 [advRow1] "io error" rfl (by simp) rfl,
    h2 [campRow1] "io error" rfl (by simp) rfl,
    h3 [evRow1] "io error" rfl (by simp) rfl,
    h4 [evRow1] "io error" rfl (by simp) rfl⟩

/-- C2: for every entity kind, after a successful load of a non-empty
batch the kind's watermark equals the fold of `max` over the non-null
raw timestamps (both `updated_at` and `created_at` for advertisers and
campaigns, only `created_at` for the append-only impressions and
clicks), starting from the prior watermark — i.e. the maximum of the
prior watermark and the greatest non-null stamp, nulls skipped. -/
theorem claim2_watermark_advance (env : Env) (st : SyncState) :
    (∀ rows, env.extractAdvertisers st.advertiser = .ok rows → rows ≠ [] →
      env.bulkAdv (transform_advertisers env.now rows) = .ok () →
      (sync_advertisers env st).2.1.advertiser =
        (pairStamps (rows.map fun r => (r.updatedAt, r.createdAt))).foldl max st.advertiser) ∧
    (∀ rows, env.extractCampaigns st.campaign = .ok rows → rows ≠ [] →
      env.bulkCamp (transform_campaigns env.now env.today rows) = .ok () →
      (sync_campaigns env st).2.1.campaign =
        (pairStamps (rows.map fun r => (r.updatedAt, r.createdAt))).foldl max st.campaign) ∧
    (∀ rows, env.extractImpressions st.impressions = .ok rows → rows ≠ [] →
      env.bulkImp (transform_events env.now rows) = .ok () →
      (sync_impressions env st).2.1.impressions =
        (singleStamps (rows.map (·.createdAt))).foldl max st.impressions) ∧
    (∀ rows, env.extractClicks st.clicks = .ok rows → rows ≠ [] →
      env.bulkClick (transform_events env.now rows) = .ok () →
      (sync_clicks env st).2.1.clicks =
        (singleStamps (rows.map (·.createdAt))).foldl max st.clicks) := by
  refine ⟨?_, ?_, ?_, ?_⟩
  · intro rows hex hne hbulk
    obtain ⟨r, rs, rfl⟩ := List.exists_cons_of_ne_nil hne
    rw [← latestOfPairs_eq_foldl]
    simp [sync_advertisers, hex, load_advertisers, transform_advertisers] at hbulk ⊢
    simp [hbulk, latestOfPairs]
  · intro rows hex hne hbulk
    obtain ⟨r, rs, rfl⟩ := List.exists_cons_of_ne_nil hne
    rw [← latestOfPairs_eq_foldl]
    simp [sync_campaigns, hex, load_campaigns, transform_campaigns] at hbulk ⊢
    simp [hbulk, latestOfPairs]
  · intro rows hex hne hbulk
    obtain ⟨r, rs, rfl⟩ := List.exists_cons_of_ne_nil hne
    rw [← latestOfSingles_eq_foldl]
    simp [sync_impressions, hex, load_events, transform_events] at hbulk ⊢
    simp [hbulk, latestOfSingles]
  · intro rows hex hne hbulk
    obtain ⟨r, rs, rfl⟩ := List.exists_cons_of_ne_nil hne
    rw [← latestOfSingles_eq_foldl]
    simp [sync_clicks, hex, load_events, transform_events] at hbulk ⊢
    simp [hbulk, latestOfSingles]

/-- Witness for C2 at a concrete environment whose extractions return
one row each and whose sink writes succeed. -/
theorem claim2_watermark_advance_witness :
    (sync_advertisers envBulkOk st0).2.1.advertiser =
      (pairStamps [(some 5, none)]).foldl max st0.advertiser ∧
    (sync_campaigns envBulkOk st0).2.1.campaign =
      (pairStamps [(some 5, none)]).foldl max st0.campaign ∧
    (sync_impressions envBulkOk st0).2.1.impressions =
      (singleStamps [some 5]).foldl max st0.impressions ∧
    (sync_clicks envBulkOk st0).2.1.clicks =
      (singleStamps [some 5]).foldl max st0.clicks := by
  obtain ⟨h1, h2, h3, h4⟩ := claim2_watermark_advance envBulkOk st0
  exact ⟨h1 [advRow1] rfl (by simp) rfl, h2 [campRow1] rfl (by simp) rfl,
    h3 [evRow1] rfl (by simp) rfl, h4 [evRow1] rfl (by simp) rfl⟩

/-- C3: for all four entity kinds, an empty extraction result makes
`sync_<kind>` return 0, leave the watermark unchanged, and touch no
sink port. -/
theorem claim3_empty_extraction (env : Env) (st : SyncState) :
    (env.extractAdvertisers st.advertiser = .ok [] →
      sync_advertisers env st = (0, st, [])) ∧
    (env.extractCampaigns st.campaign = .ok [] →
      sync_campaigns env st = (0, st, [])) ∧
    (env.extractImpressions st.impressions = .ok [] →
      sync_impressions env st = (0, st, [])) ∧
    (env.extractClicks st.clicks = .ok [] →
      sync_clicks env st = (0, st, [])) := by
  refine ⟨fun hex => ?_, fun hex => ?_, fun hex => ?_, fun hex => ?_⟩
  · simp [sync_advertisers, hex]
  · simp [sync_campaigns, hex]
  · simp [sync_impressions, hex]
  · simp [sync_clicks, hex]

/-- Witness for C3 at a concrete environment whose extractions are all
empty. -/
theorem claim3_empty_extraction_witness :
    sync_advertisers envEmpty st0 = (0, st0, []) ∧
    sync_campaigns envEmpty st0 = (0, st0, []) ∧
    sync_impressions envEmpty st0 = (0, st0, []) ∧
    sync_clicks envEmpty st0 = (0, st0, []) := by
  obtain ⟨h1, h2, h3, h4⟩ := claim3_empty_extraction envEmpty st0
  exact ⟨h1 rfl, h2 rfl, h3 rfl, h4 rfl⟩

/-- C4: end-to-end scenario — the source holds one advertiser
`(1, "Acme", T, T)` with `T` above the watermark: `sync_advertisers`
returns 1, the sink bulk-write port receives exactly one call with
exactly the row `(1, "Acme", T, T)`, and the watermark becomes `T`;
a second immediate call against the same source state returns 0 and
makes no sink call. -/
theorem claim4_acme_end_to_end (T w0 c i k : Ts) (h : w0 < T) :
    sync_advertisers (acmeEnv T) ⟨w0, c, i, k⟩ =
      (1, ⟨T, c, i, k⟩, [[⟨1, "Acme", T, T⟩]]) ∧
    sync_advertisers (acmeEnv T) ⟨T, c, i, k⟩ = (0, ⟨T, c, i, k⟩, []) := by
  constructor
  · simp only [sync_advertisers, acmeEnv, extract_advertisers_sql, acmeRow, sqlGt]
    simp [h, transform_advertisers, load_advertisers, latestOfPairs, stepMax,
      lt_irrefl]
  · simp [sync_advertisers, acmeEnv, extract_advertisers_sql, acmeRow, sqlGt,
      lt_irrefl]

/-- Witness for C4 at `T = 5`, prior watermark 0. -/
theorem claim4_acme_end_to_end_witness :
    (0 : Ts) < 5 ∧
    (sync_advertisers (acmeEnv 5) ⟨0, 0, 0, 0⟩ =
        (1, ⟨5, 0, 0, 0⟩, [[⟨1, "Acme", 5, 5⟩]]) ∧
      sync_advertisers (acmeEnv 5) ⟨5, 0, 0, 0⟩ = (0, ⟨5, 0, 0, 0⟩, [])) :=
  ⟨by norm_num, claim4_acme_end_to_end 5 0 0 0 0 (by norm_num)⟩

/-- C8: `run_sync_cycle` does run the four syncs in order and report
success, but it does NOT collect the returned counts into any cycle
summary: the caller-visible outcome of a cycle whose advertiser sync
loaded one row (a row with `NULL` stamps, so the watermark also stays
put) is identical to that of a cycle that loaded nothing, so no
function of the outcome can recover the counts — the repository's own
tests (`test_etl.py::test_run_sync_cycle_success`, which reads
`pipeline.sync_stats`) contradict the code here. -/
theorem claim8_counts_not_collected :
    run_sync_cycle envOneNullRow st0 = run_sync_cycle envEmpty st0 ∧
    (sync_advertisers envOneNullRow st0).1 = 1 ∧
    (sync_advertisers envEmpty st0).1 = 0 ∧
    ¬ ∃ g : Bool × SyncState → Nat, ∀ env st,
        g (run_sync_cycle env st) = (sync_advertisers env st).1 := by
  refine ⟨by decide, by decide, by decide, ?_⟩
  rintro ⟨g, hg⟩
  have h0 := hg envEmpty st0
  have h1 := hg envOneNullRow st0
  have e0 : run_sync_cycle envEmpty st0 = (true, st0) := by decide
  have e1 : run_sync_cycle envOneNullRow st0 = (true, st0) := by decide
  have c0 : (sync_advertisers envEmpty st0).1 = 0 := by decide
  have c1 : (sync_advertisers envOneNullRow st0).1 = 1 := by decide
  rw [e0, c0] at h0
  rw [e1, c1] at h1
  omega

end ClickhousePipeline

namespace StreamProcessor

/-- C5: `_parse_numeric` is claimed never to raise, with 1.0 as the
fallback for values still unparseable after cleaning — but on the
string `"1.2.3"` the direct `float` fails, the cleaned string is again
`"1.2.3"`, and the second, unguarded `float(clean_value)` raises a
`ValueError` that propagates out of the method. -/
theorem claim5_parse_numeric_raises :
    parse_numeric (.str "1.2.3") = .error "ValueError" ∧
    cleanNumeric "1.2.3" = "1.2.3" ∧
    pyFloat? "1.2.3" = Option.none := by
  refine ⟨rfl, rfl, rfl⟩

/-- C6 counterexample: the instant 1000 seconds after the epoch,
passed as integer Unix seconds (`1000`) and as the same instant in
milliseconds (`1000000`): the magnitude heuristic classifies both as
seconds, so the two results are 11 calendar days apart, refuting the
claim for this instant. -/
theorem claim6_sec_ms_counterexample :
    parse_date 0 (.int 1000) = .datetime 1000 ∧
    parse_date 0 (.int (1000 * 1000)) = .datetime 1000000 ∧
    pyDateOf (parse_date 0 (.int 1000)) = .date 0 ∧
    pyDateOf (parse_date 0 (.int (1000 * 1000))) = .date 11 ∧
    pyDateOf (parse_date 0 (.int 1000)) ≠
      pyDateOf (parse_date 0 (.int (1000 * 1000))) := by
  refine ⟨by with_unfolding_all rfl, by with_unfolding_all rfl,
    by with_unfolding_all rfl, by with_unfolding_all rfl,
    by with_unfolding_all decide⟩

/-- C6 amended: for every instant whose integer Unix-seconds value `s`
satisfies `32503680 ≤ s < 32503680000` (between 1971-01-12 and the
year-3000 cut-off, where the magnitude heuristic is consistent),
`parse_timestamp` on the seconds value and on the same instant in
milliseconds return the same datetime, hence the same calendar date
and the same time-of-second. -/
theorem claim6_sec_ms_agree (now : Rat) (s : Int)
    (h1 : 32503680 ≤ s) (h2 : s < 32503680000) :
    parse_date now (.int (1000 * s)) = parse_date now (.int s) ∧
    pyDateOf (parse_date now (.int (1000 * s))) =
      pyDateOf (parse_date now (.int s)) := by
  have hA : ¬ (1000 * s < 32503680000) := by omega
  have hB : 1000 * s < 32503680000000 := by omega
  have hcast : ((1000 * s : Int) : Rat) / 1000 = (s : Rat) := by
    push_cast
    rw [mul_comm, mul_div_assoc]
    norm_num
  have hmain : parse_date now (.int (1000 * s)) = parse_date now (.int s) := by
    simp only [parse_date, if_neg hA, if_pos hB, if_pos h2, hcast]
  exact ⟨hmain, by rw [hmain]⟩

/-- Witness for C6 amended at `s = 1700000000` (2023-11-14). -/
theorem claim6_sec_ms_agree_witness :
    (32503680 : Int) ≤ 1700000000 ∧ (1700000000 : Int) < 32503680000 ∧
    parse_date 0 (.int (1000 * 1700000000)) = parse_date 0 (.int 1700000000) :=
  ⟨by norm_num, by norm_num,
    (claim6_sec_ms_agree 0 1700000000 (by norm_num) (by norm_num)).1⟩

/-- C7: a delete-operation event never calls the sink single-row write
port (for any table), and an update-operation event for the
append-only kinds impressions/clicks never calls it either; the
per-kind counters are also untouched. -/
theorem claim7_delete_update_no_write (env : ProcEnv) (st : ProcStats)
    (table : String) (data : Payload) :
    handle_operation env st "d" table data = (st, []) ∧
    handle_operation env st "u" "impressions" data = (st, []) ∧
    handle_operation env st "u" "clicks" data = (st, []) := by
  refine ⟨?_, ?_, ?_⟩ <;> simp [handle_operation]

/-- C9: the documented concrete values of `_parse_numeric`:
`"$3.99"` (cleaned to `"3.99"`) parses to 3.99, `"invalid"` cleans to
the empty string and yields the fallback 1.0, and `None` yields 0.0. -/
theorem claim9_parse_numeric_examples :
    parse_numeric (.str "$3.99") = .ok (399 / 100 : Rat) ∧
    parse_numeric (.str "invalid") = .ok 1 ∧
    parse_numeric .none = .ok 0 := by
  refine ⟨by with_unfolding_all rfl, rfl, rfl⟩

/-- C10: `_ensure_datetime` does map a date-only value to midnight and
is the identity on datetimes, but `_ensure_date` is NOT the calendar-
date extraction on datetimes: since Python's `datetime` subclasses
`date`, the first `isinstance(dt_value, date)` test already matches a
datetime and returns it unchanged (its datetime branch is dead code),
so the round trip `_ensure_date(_ensure_datetime(d))` returns
midnight-of-`d` as a datetime, not the date `d`.  Shown at the
datetime 90000 s (1970-01-02 01:00, calendar day 1) and the date
epoch-day 5. -/
theorem claim10_ensure_date_bug :
    ensure_datetime 0 (.date 5) = .datetime ((5 * 86400 : Int) : Rat) ∧
    ensure_datetime 0 (.datetime 90000) = .datetime 90000 ∧
    ensure_date 0 (.datetime 90000) = .datetime 90000 ∧
    ensure_date 0 (.datetime 90000) ≠ .date 1 ∧
    ensure_date 0 (ensure_datetime 0 (.date 5)) = .datetime ((5 * 86400 : Int) : Rat) ∧
    ensure_date 0 (ensure_datetime 0 (.date 5)) ≠ .date 5 := by
  refine ⟨rfl, rfl, rfl, by with_unfolding_all decide, rfl,
    by with_unfolding_all decide⟩

end StreamProcessor
